import Mathlib

/-!
Verification of `wialon_api_client/client.py` (class `WialonClient`).

Shallow embedding: the client's methods become Lean functions over an explicit
state `St` that carries the fields of the Python object (`token`, `_sid`) plus
an oracle for the network (a queue of pending HTTP outcomes) and an
observation log of the requests actually issued (`calls`) and of the log
records the claims mention (`log`).

JSON values are modelled by the inductive `Json`.  `response.json()` is
modelled by the oracle directly supplying `Option Json` next to the raw body
text (the JSON parser itself is external library code, not part of this
repository).  JSON numbers are modelled as integers; decimal server values
appear as strings in the relevant API fields, which is what the code's own
documentation shows.  Python dictionaries have unique keys, so object field
lists are assumed duplicate-free where it matters.

Python exceptions raised by the client are the four classes
`WialonAuthError`, `WialonRequestError`, `WialonDataError` (all subclasses of
`WialonAPIError`) plus built-ins (`KeyError`, `ValueError`, `TypeError`)
reachable from dictionary indexing and `float()`.  Fallible methods return
`Except`.

Membership tests such as `"error" in data` are modelled for dictionary and
list operands (the response envelope is an object per the wire protocol); the
Python semantics of `in` on strings (substring test) and scalars (TypeError)
is outside the model, and theorems restrict their quantifiers accordingly.
-/

namespace WialonModel

/-- JSON values as produced by `response.json()`.  Numbers are integers
(decimal literals do not occur in the modelled responses). -/
inductive Json where
  | null : Json
  | bool (b : Bool) : Json
  | num (n : Int) : Json
  | str (s : String) : Json
  | arr (xs : List Json) : Json
  | obj (fields : List (String × Json)) : Json

namespace Json

/-- Python truthiness of a JSON value (`if self._sid:` etc.):
`None`, `False`, `0`, `""`, `[]` and `\x7b\x7d` are falsy. -/
def truthy : Json → Bool
  | .null => false
  | .bool b => b
  | .num n => n != 0
  | .str s => !s.data.isEmpty
  | .arr xs => !xs.isEmpty
  | .obj fs => !fs.isEmpty

/-- Dictionary key lookup: `data.get(k)` / the `k in data` test on an object.
Returns `none` on non-objects (for objects and lists this agrees with the
membership test reading used by the code; see the module comment). -/
def get? : Json → String → Option Json
  | .obj fs, k => fs.lookup k
  | _, _ => none

/-- Is this value a dictionary? -/
def isObj : Json → Bool
  | .obj _ => true
  | _ => false

/-- Is this value a number or a string (the error-code shapes the envelope
uses)? -/
def isNumOrStr : Json → Bool
  | .num _ => true
  | .str _ => true
  | _ => false

mutual
/-- Python `repr` of a JSON value, as used when a container is interpolated
into an f-string.  String escaping inside `repr` is not modelled (the
claims only interpolate numbers and plain strings). -/
def pyRepr : Json → String
  | .null => "None"
  | .bool b => if b then "True" else "False"
  | .num n => toString n
  | .str s => "\x27" ++ s ++ "\x27"
  | .arr xs => "[" ++ pyReprArr xs ++ "]"
  | .obj fs => "\x7b" ++ pyReprObj fs ++ "\x7d"

def pyReprArr : List Json → String
  | [] => ""
  | [x] => pyRepr x
  | x :: xs => pyRepr x ++ ", " ++ pyReprArr xs

def pyReprObj : List (String × Json) → String
  | [] => ""
  | [(k, v)] => "\x27" ++ k ++ "\x27: " ++ pyRepr v
  | (k, v) :: fs => "\x27" ++ k ++ "\x27: " ++ pyRepr v ++ ", " ++ pyReprObj fs
end

mutual
/-- Structural equality of JSON values, used by Python `in` on a list
operand.  (Python dictionary equality is key-order-insensitive; the
order-sensitive version suffices here because membership tests in the model
only ever compare scalars.) -/
def beq : Json → Json → Bool
  | .null, .null => true
  | .bool a, .bool b => a == b
  | .num a, .num b => a == b
  | .str a, .str b => a == b
  | .arr xs, .arr ys => beqArr xs ys
  | .obj fs, .obj gs => beqObj fs gs
  | _, _ => false

def beqArr : List Json → List Json → Bool
  | [], [] => true
  | x :: xs, y :: ys => beq x y && beqArr xs ys
  | _, _ => false

def beqObj : List (String × Json) → List (String × Json) → Bool
  | [], [] => true
  | (k, v) :: fs, (l, w) :: gs => k == l && beq v w && beqObj fs gs
  | _, _ => false
end

instance : BEq Json := ⟨beq⟩

/-- Python `str` of a JSON value, as used by f-string interpolation
(`f"API Error \x7berror_code\x7d..."`): strings interpolate without quotes,
everything else as `repr`. -/
def render : Json → String
  | .str s => s
  | j => pyRepr j

end Json

/-!
The Python string builtins the code uses (`str.split`, `str.replace`,
`int(...)`, `float(...)`) are modelled by structural functions on character
lists so that every definition evaluates inside the kernel.
-/

/-- Does `s` start with `pat`? -/
def leadsWith : List Char → List Char → Bool
  | [], _ => true
  | _ :: _, [] => false
  | p :: ps, c :: cs => p == c && leadsWith ps cs

/-- Worker for `replaceAll`, structurally recursive on a fuel argument so
that it reduces inside the kernel; `fuel ≥ s.length` always suffices because
each step consumes at least one character. -/
def replaceAllFuel (pat repl : List Char) : Nat → List Char → List Char
  | _, [] => []
  | 0, s => s
  | fuel + 1, c :: rest =>
      if pat ≠ [] ∧ leadsWith pat (c :: rest) then
        repl ++ replaceAllFuel pat repl fuel (rest.drop (pat.length - 1))
      else
        c :: replaceAllFuel pat repl fuel rest

/-- Python `s.replace(pat, repl)`: replace every occurrence of a non-empty
`pat`, scanning left to right.  (Python's behaviour for an empty pattern is
not needed: the code only replaces `"API Error "`.) -/
def replaceAll (pat repl : List Char) (s : List Char) : List Char :=
  replaceAllFuel pat repl s.length s

/-- Python `s.split(sep)` for a one-character separator: `""` splits to
`[""]`, and every separator occurrence opens a new chunk. -/
def splitOnChar (sep : Char) : List Char → List (List Char)
  | [] => [[]]
  | c :: cs =>
      let r := splitOnChar sep cs
      if c == sep then [] :: r
      else
        match r with
        | h :: t => (c :: h) :: t
        | [] => [[c]]

/-- The numeric value of a string of decimal digits. -/
def digitsVal (cs : List Char) : Nat :=
  cs.foldl (fun a c => a * 10 + (c.toNat - 48)) 0

/-- Python `int(s)`: surrounding spaces stripped, optional sign, at least one
digit.  (Underscore digit grouping and non-space whitespace are not
needed by the modelled strings.) -/
def pyInt? (s : List Char) : Option Int :=
  let t := ((s.dropWhile (· == ' ')).reverse.dropWhile (· == ' ')).reverse
  match t with
  | [] => none
  | '-' :: rest =>
      if rest ≠ [] ∧ rest.all Char.isDigit then some (-(digitsVal rest : Int))
      else none
  | '+' :: rest =>
      if rest ≠ [] ∧ rest.all Char.isDigit then some (digitsVal rest : Int)
      else none
  | _ =>
      if t.all Char.isDigit then some (digitsVal t : Int) else none

/-- Exceptions of the module's own taxonomy.  In Python, `WialonAuthError`,
`WialonRequestError` and `WialonDataError` are all subclasses of
`WialonAPIError`, so an `except WialonAPIError` clause catches every
constructor below. -/
inductive WialonError where
  | apiError (msg : String) : WialonError
  | authError (msg : String) : WialonError
  | requestError (msg : String) : WialonError
  | dataError (msg : String) : WialonError
deriving DecidableEq, Repr

/-- The message carried by the exception (`str(e)`). -/
def WialonError.msg : WialonError → String
  | .apiError m => m
  | .authError m => m
  | .requestError m => m
  | .dataError m => m

/-- Python exceptions reachable from the public operations: the module's own
taxonomy plus the built-ins raised by dictionary indexing and `float()`. -/
inductive PyError where
  | wialon (e : WialonError) : PyError
  | keyError (k : String) : PyError
  | valueError (msg : String) : PyError
  | typeError (msg : String) : PyError
deriving DecidableEq, Repr

/-- One outcome of `requests.get` + `raise_for_status` + `response.json()`:
either a transport-level failure (connection error, timeout, or non-2xx
status — all raise `requests.exceptions.RequestException`), or a body with
its raw text and, when the text is valid JSON, its parse. -/
inductive HttpResult where
  | transportError (msg : String) : HttpResult
  | success (text : String) (json : Option Json) : HttpResult

/-- A request the client actually issued: service name, the `params`
dictionary (its JSON-string serialization in the query is not further
modelled), and the `sid` query parameter when one was attached. -/
structure NetCall where
  svc : String
  params : Json
  sid : Option Json

/-- Log levels of the records the claims mention. -/
inductive LogLevel where
  | debug : LogLevel
  | info : LogLevel
  | warning : LogLevel
  | error : LogLevel
deriving DecidableEq, Repr

/-- Client state: the Python object's fields plus the network oracle and the
observation traces.  `net` is the queue of outcomes the network will return,
one per issued request.  Incidental `logger.info`/`logger.debug` chatter
outside `logout`'s error handling is not recorded. -/
structure St where
  token : String
  sid : Option Json
  net : List HttpResult
  calls : List NetCall
  log : List (LogLevel × String)

/-- Truthiness of `self._sid` (which is `None` or a JSON value). -/
def sidTruthy : Option Json → Bool
  | none => false
  | some j => j.truthy

namespace WialonClient

/-- `WialonClient._call_api`: build the query (attaching `sid` when truthy),
issue the GET, and interpret the outcome: transport failure →
`WialonRequestError`; body that is not JSON → `WialonDataError` carrying the
raw text; parsed body with an `error` key → `WialonAuthError` on
`token/login`, `WialonAPIError` otherwise, with the formatted message;
otherwise the parsed body unchanged.  An exhausted oracle is read as a
transport failure. -/
def callApi (service : String) (params : Json) (st : St) :
    Except WialonError Json × St :=
  let call : NetCall :=
    { svc := service, params := params,
      sid := if sidTruthy st.sid then st.sid else none }
  let st1 : St := { st with net := st.net.tail, calls := st.calls ++ [call] }
  match st.net.headD (.transportError "no response") with
  | .transportError e =>
      (.error (.requestError
        ("Error de conexión al llamar a " ++ service ++ ": " ++ e)), st1)
  | .success text parsed =>
      match parsed with
      | none =>
          (.error (.dataError
            ("Error al decodificar la respuesta JSON de " ++ service ++ ": "
              ++ text)), st1)
      | some data =>
          match data.get? "error" with
          | some code =>
              let reasonTxt := match data.get? "reason" with
                | some r => r.render
                | none => "Unknown error"
              let msg := "API Error " ++ code.render ++ ": " ++ service
                ++ " - " ++ reasonTxt
              if service == "token/login" then (.error (.authError msg), st1)
              else (.error (.apiError msg), st1)
          | none => (.ok data, st1)

/-- `WialonClient.login`: reuse the held sid when truthy, otherwise call
`token/login` and store `eid` from the response; a response without `eid`
raises `WialonAuthError`. -/
def login (st : St) : Except WialonError Json × St :=
  if sidTruthy st.sid then
    (.ok (st.sid.getD .null), st)
  else
    match callApi "token/login" (.obj [("token", .str st.token)]) st with
    | (.error e, st1) => (.error e, st1)
    | (.ok data, st1) =>
        match data.get? "eid" with
        | some eid => (.ok eid, { st1 with sid := some eid })
        | none =>
            (.error (.authError
              "Respuesta inesperada al obtener SID: \x27eid\x27 no encontrado."),
             st1)

/-- The error-code extraction in `logout`'s `except WialonAPIError` handler:
`str(e).split(':')[0].replace('API Error ', '')` parsed with `int`, `-1`
when unparsable. -/
def logoutCode (e : WialonError) : Int :=
  let head := (splitOnChar ':' e.msg.data).headD []
  let codeStr := replaceAll "API Error ".data "".data head
  match pyInt? codeStr with
  | some n => n
  | none => -1

/-- `WialonClient.logout`: nothing to do without a truthy sid; otherwise call
`core/logout`.  On success the sid is cleared.  Every `WialonError` is a
subclass of `WialonAPIError`, so the first `except` clause catches them all:
extracted code 0 is logged at debug level, anything else at warning level,
and the exception is swallowed — the sid assignment was skipped.  The
trailing `except Exception` clause is unreachable in the model because
`callApi` raises only `WialonError`. -/
def logout (st : St) : St :=
  if sidTruthy st.sid then
    match callApi "core/logout" (.obj []) st with
    | (.ok _, st1) =>
        { st1 with sid := none,
                   log := st1.log ++ [(.info, "Sesión cerrada exitosamente.")] }
    | (.error e, st1) =>
        if logoutCode e = 0 then
          { st1 with log := st1.log ++
            [(.debug,
              "Sesión ya invalidada o error genérico al cerrar sesión (código 0): "
                ++ e.msg)] }
        else
          { st1 with log := st1.log ++
            [(.warning, "Advertencia al cerrar sesión: " ++ e.msg)] }
  else st

/-- `WialonClient.ensure_sid`: log in iff no truthy sid is held. -/
def ensure_sid (st : St) : Except WialonError Unit × St :=
  if sidTruthy st.sid then
    (.ok (), st)
  else
    match login st with
    | (.ok _, st1) => (.ok (), st1)
    | (.error e, st1) => (.error e, st1)

/-- Python subscripting `j[k]` with a string key: value on a dictionary with
the key, `KeyError` on a dictionary without it, `TypeError` otherwise. -/
def pyIndex (j : Json) (k : String) : Except PyError Json :=
  match j with
  | .obj fs =>
      match fs.lookup k with
      | some v => .ok v
      | none => .error (.keyError k)
  | _ => .error (.typeError "object is not subscriptable")

/-- One element of the list comprehension in `get_unit_ids`:
`\x7b"nombre": item["nm"], "id": item["id"]\x7d` (Python evaluates
`item["nm"]` first). -/
structure Unidad where
  nombre : Json
  id : Json

def mkUnidad (item : Json) : Except PyError Unidad :=
  match pyIndex item "nm" with
  | .error e => .error e
  | .ok nm =>
      match pyIndex item "id" with
      | .error e => .error e
      | .ok i => .ok ⟨nm, i⟩

/-- The list comprehension `[mkUnidad(item) for item in items]`, evaluated
left to right; the first raising element aborts the whole comprehension. -/
def buildUnidades : List Json → Except PyError (List Unidad)
  | [] => .ok []
  | item :: rest =>
      match mkUnidad item with
      | .error e => .error e
      | .ok u =>
          match buildUnidades rest with
          | .error e => .error e
          | .ok us => .ok (u :: us)

/-- The `params` dictionary `get_unit_ids` sends to `core/search_items`. -/
def searchParams (mask : String) : Json :=
  .obj [("spec", .obj [("itemsType", .str "avl_unit"),
                       ("propName", .str "sys_name"),
                       ("propValueMask", .str mask),
                       ("sortType", .str "sys_name")]),
        ("force", .num 1), ("flags", .num 1),
        ("from", .num 0), ("to", .num 0)]

/-- `WialonClient.get_unit_ids`: ensure a sid, call `core/search_items`, and
map the `items` list through the comprehension; a response without `items`
raises `WialonDataError`.  Iterating a non-list `items` value is modelled as
`TypeError` (Python would also accept other iterables; the wire protocol
serves a list). -/
def get_unit_ids (mask : String) (st : St) :
    Except PyError (List Unidad) × St :=
  match ensure_sid st with
  | (.error e, st1) => (.error (.wialon e), st1)
  | (.ok _, st1) =>
      match callApi "core/search_items" (searchParams mask) st1 with
      | (.error e, st2) => (.error (.wialon e), st2)
      | (.ok data, st2) =>
          match data.get? "items" with
          | some (.arr items) =>
              match buildUnidades items with
              | .ok us => (.ok us, st2)
              | .error e => (.error e, st2)
          | some _ => (.error (.typeError "object is not iterable"), st2)
          | none =>
              (.error (.wialon (.dataError
                "Respuesta inesperada al buscar unidades: \x27items\x27 no encontrado.")),
               st2)

/-- Python `float(s)` on the decimal forms the API serves: optional sign,
integer digits, optional fraction.  (`inf`, `nan`, exponents and surrounding
whitespace are outside the model.)  The value is exact, as a rational. -/
def parseDecimal (s : String) : Option Rat :=
  let (neg, body) :=
    match s.data with
    | '-' :: rest => (true, rest)
    | '+' :: rest => (false, rest)
    | cs => (false, cs)
  let sign : Int := if neg then -1 else 1
  match splitOnChar '.' body with
  | [ip] =>
      if ip ≠ [] ∧ ip.all Char.isDigit then
        some (mkRat (sign * digitsVal ip) 1)
      else none
  | [ip, fp] =>
      if (ip ≠ [] ∨ fp ≠ []) ∧ ip.all Char.isDigit ∧ fp.all Char.isDigit then
        some (mkRat (sign * (digitsVal ip * 10 ^ fp.length + digitsVal fp))
          (10 ^ fp.length))
      else none
  | _ => none

/-- Python `float(x)` on a JSON value: numbers and booleans convert, strings
parse (`ValueError` when they do not), everything else is `TypeError`. -/
def pyFloat (j : Json) : Except PyError Rat :=
  match j with
  | .num n => .ok (mkRat n 1)
  | .bool b => .ok (if b then mkRat 1 1 else mkRat 0 1)
  | .str s =>
      match parseDecimal s with
      | some q => .ok q
      | none => .error (.valueError
          ("could not convert string to float: " ++ s))
  | _ => .error (.typeError "float() argument must be a string or a number")

/-- `WialonClient.get_unit_mileage`: ensure a sid, call `core/search_item`,
and return `float(data["item"]["cnm_km"])` when both keys are present,
`None` otherwise.  The `"cnm_km" in data["item"]` membership test is
modelled for dictionary and list operands (`TypeError` otherwise; the
substring reading on strings is outside the model). -/
def get_unit_mileage (item_id : Int) (st : St) :
    Except PyError (Option Rat) × St :=
  match ensure_sid st with
  | (.error e, st1) => (.error (.wialon e), st1)
  | (.ok _, st1) =>
      match callApi "core/search_item"
          (.obj [("id", .num item_id), ("flags", .num 8192)]) st1 with
      | (.error e, st2) => (.error (.wialon e), st2)
      | (.ok data, st2) =>
          match data.get? "item" with
          | some item =>
              match item with
              | .obj fs =>
                  match fs.lookup "cnm_km" with
                  | some v =>
                      match pyFloat v with
                      | .ok q => (.ok (some q), st2)
                      | .error e => (.error e, st2)
                  | none => (.ok none, st2)
              | .arr xs =>
                  if xs.contains (.str "cnm_km") then
                    (.error (.typeError "list indices must be integers"), st2)
                  else (.ok none, st2)
              | _ =>
                  (.error (.typeError "argument of type is not iterable"), st2)
          | none => (.ok none, st2)

/-- The `with WialonClient(...) as client:` protocol around a block `body`:
`__enter__` calls `login` (an exception there propagates, the block and
`__exit__` do not run); then the block runs; `__exit__` calls `logout` on
every exit path and returns `None`, so an exception from the block is never
suppressed. -/
def withClient {α : Type} (st : St)
    (body : St → Except PyError α × St) : Except PyError α × St :=
  match login st with
  | (.error e, st1) => (.error (.wialon e), st1)
  | (.ok _, st1) =>
      let r := body st1
      (r.1, logout r.2)

end WialonClient

/-!
Helper lemmas.
-/

namespace WialonClient

/-- Whatever the outcome, `_call_api` consumes one pending response and
records exactly one issued request (with the sid attached iff truthy),
touching nothing else of the state. -/
lemma callApi_state (service : String) (params : Json) (st : St) :
    (callApi service params st).2 =
      { st with net := st.net.tail,
                calls := st.calls ++
                  [⟨service, params,
                    if sidTruthy st.sid then st.sid else none⟩] } := by
  unfold callApi
  cases hn : st.net.headD (.transportError "no response") with
  | transportError m => rfl
  | success text pj =>
      cases pj with
      | none => rfl
      | some data =>
          dsimp only
          cases hq : data.get? "error" with
          | none => rfl
          | some c =>
              by_cases hs : (service == "token/login") = true <;> simp [hs]

/-- A successful round trip: body parses, no `error` key. -/
lemma callApi_ok (service : String) (params : Json) (st : St)
    (text : String) (data : Json) (rest : List HttpResult)
    (hnet : st.net = .success text (some data) :: rest)
    (he : data.get? "error" = none) :
    callApi service params st =
      (.ok data,
        { st with net := rest,
                  calls := st.calls ++
                    [⟨service, params,
                      if sidTruthy st.sid then st.sid else none⟩] }) := by
  unfold callApi
  rw [hnet]
  dsimp only [List.headD, List.tail]
  rw [he]

/-- `login` on a client without a truthy sid issues exactly the
`token/login` request, with no sid attached. -/
lemma login_calls (st : St) (h : sidTruthy st.sid = false) :
    (login st).2.calls =
      st.calls ++ [⟨"token/login", .obj [("token", .str st.token)], none⟩] := by
  unfold login
  rw [if_neg (by simp [h])]
  rcases hc : callApi "token/login" (.obj [("token", .str st.token)]) st
    with ⟨r, st1⟩
  have hst1 : st1.calls =
      st.calls ++ [⟨"token/login", .obj [("token", .str st.token)], none⟩] := by
    have h2 : st1 =
        (callApi "token/login" (.obj [("token", .str st.token)]) st).2 := by
      rw [hc]
    rw [h2, callApi_state]
    simp [h]
  cases r with
  | error e => exact hst1
  | ok data =>
      dsimp only
      cases hq : data.get? "eid" with
      | none => exact hst1
      | some eid => exact hst1

/-- `logout` on a client with a truthy sid issues exactly the `core/logout`
request, with the sid attached, whatever the outcome. -/
lemma logout_calls (st : St) (h : sidTruthy st.sid = true) :
    (logout st).calls = st.calls ++ [⟨"core/logout", .obj [], st.sid⟩] := by
  unfold logout
  rw [if_pos h]
  rcases hc : callApi "core/logout" (.obj []) st with ⟨r, st1⟩
  have hst1 : st1.calls = st.calls ++ [⟨"core/logout", .obj [], st.sid⟩] := by
    have h2 : st1 = (callApi "core/logout" (.obj []) st).2 := by rw [hc]
    rw [h2, callApi_state]
    simp [h]
  cases r with
  | ok data => exact hst1
  | error e =>
      dsimp only
      by_cases h0 : logoutCode e = 0 <;> simp [h0, hst1]

/-- The state `get_unit_ids` ends in is the state of its
`core/search_items` round trip, whichever way the payload is then
interpreted. -/
lemma get_unit_ids_snd (mask : String) (st st1 : St)
    (hes : ensure_sid st = (.ok (), st1)) :
    (get_unit_ids mask st).2 =
      (callApi "core/search_items" (searchParams mask) st1).2 := by
  unfold get_unit_ids
  rw [hes]
  dsimp only
  rcases hc : callApi "core/search_items" (searchParams mask) st1 with ⟨r, st2⟩
  cases r with
  | error e => rfl
  | ok data =>
      dsimp only
      cases hq : data.get? "items" with
      | none => rfl
      | some items =>
          cases items
          case arr xs =>
              dsimp only
              cases hm : buildUnidades xs <;> rfl
          all_goals rfl

/-- The state `get_unit_mileage` ends in is the state of its
`core/search_item` round trip. -/
lemma get_unit_mileage_snd (iid : Int) (st st1 : St)
    (hes : ensure_sid st = (.ok (), st1)) :
    (get_unit_mileage iid st).2 =
      (callApi "core/search_item"
        (.obj [("id", .num iid), ("flags", .num 8192)]) st1).2 := by
  unfold get_unit_mileage
  rw [hes]
  dsimp only
  rcases hc : callApi "core/search_item"
      (.obj [("id", .num iid), ("flags", .num 8192)]) st1 with ⟨r, st2⟩
  cases r with
  | error e => rfl
  | ok data =>
      dsimp only
      cases hq : data.get? "item" with
      | none => rfl
      | some item =>
          cases item
          case obj fs =>
              dsimp only
              cases hl : List.lookup "cnm_km" fs with
              | none => rfl
              | some v =>
                  dsimp only
                  cases hv : pyFloat v <;> rfl
          case arr xs =>
              dsimp only
              by_cases hx : xs.contains (.str "cnm_km") = true <;> simp [hx]
          all_goals rfl

end WialonClient

/-- Does a record carry both keys the comprehension in `get_unit_ids`
reads? -/
def hasUnitKeys (r : Json) : Bool :=
  (r.get? "nm").isSome && (r.get? "id").isSome

/-- The unit record the comprehension builds from a well-formed item. -/
def unidadOf (r : Json) : WialonClient.Unidad :=
  ⟨(r.get? "nm").getD .null, (r.get? "id").getD .null⟩

lemma isObj_exists (r : Json) (h : r.isObj = true) :
    ∃ fs, r = Json.obj fs := by
  cases r <;> first | exact ⟨_, rfl⟩ | simp [Json.isObj] at h

lemma mkUnidad_of_keys (r : Json) (h : hasUnitKeys r = true) :
    WialonClient.mkUnidad r = .ok (unidadOf r) := by
  cases r
  case obj fs =>
      simp only [hasUnitKeys, Json.get?, Bool.and_eq_true,
        Option.isSome_iff_exists] at h
      obtain ⟨⟨nm, hnm⟩, ⟨i, hi⟩⟩ := h
      simp [WialonClient.mkUnidad, WialonClient.pyIndex, unidadOf, Json.get?,
        hnm, hi]
  all_goals simp [hasUnitKeys, Json.get?] at h

lemma buildUnidades_ok (items : List Json)
    (h : ∀ r ∈ items, hasUnitKeys r = true) :
    WialonClient.buildUnidades items = .ok (items.map unidadOf) := by
  induction items with
  | nil => rfl
  | cons r rest ih =>
      unfold WialonClient.buildUnidades
      rw [mkUnidad_of_keys r (h r (by simp)),
        ih (fun x hx => h x (by simp [hx]))]
      rfl

lemma buildUnidades_keyerror (items : List Json)
    (hobj : ∀ r ∈ items, r.isObj = true)
    (hbad : ¬ ∀ r ∈ items, hasUnitKeys r = true) :
    ∃ k, (k = "nm" ∨ k = "id") ∧
      WialonClient.buildUnidades items = .error (.keyError k) := by
  induction items with
  | nil => exact absurd (by simp) hbad
  | cons r rest ih =>
      by_cases hr : hasUnitKeys r = true
      · have hb : ¬ ∀ x ∈ rest, hasUnitKeys x = true := by
          intro hall
          exact hbad (by
            intro x hx
            rcases List.mem_cons.mp hx with h1 | h2
            · exact h1 ▸ hr
            · exact hall x h2)
        obtain ⟨k, hk, he⟩ := ih (fun x hx => hobj x (by simp [hx])) hb
        refine ⟨k, hk, ?_⟩
        unfold WialonClient.buildUnidades
        rw [mkUnidad_of_keys r hr, he]
      · obtain ⟨fs, rfl⟩ := isObj_exists r (hobj r (by simp))
        cases hn : List.lookup "nm" fs with
        | none =>
            refine ⟨"nm", .inl rfl, ?_⟩
            simp [WialonClient.buildUnidades, WialonClient.mkUnidad,
              WialonClient.pyIndex, hn]
        | some v =>
            cases hi : List.lookup "id" fs with
            | none =>
                refine ⟨"id", .inr rfl, ?_⟩
                simp [WialonClient.buildUnidades, WialonClient.mkUnidad,
                  WialonClient.pyIndex, hn, hi]
            | some w =>
                exact absurd (by simp [hasUnitKeys, Json.get?, hn, hi]) hr

/-!
Claims.
-/

/-- The message `_call_api` formats when the parsed body carries an `error`
key: `f"API Error \x7berror_code\x7d: \x7bservice\x7d - \x7breason\x7d"`,
with `Unknown error` as the fallback reason. -/
def envelopeMsg (service : String) (data code : Json) : String :=
  "API Error " ++ code.render ++ ": " ++ service ++ " - "
    ++ (match data.get? "reason" with
        | some r => r.render
        | none => "Unknown error")

/-- C3: for every request whose HTTP response body is not valid JSON,
`_call_api` fails with `WialonDataError` and the error message carries the
raw body text (as the suffix after the fixed prefix naming the service). -/
theorem callApi_nonjson_dataerror (st : St) (service : String) (params : Json)
    (text : String) (rest : List HttpResult)
    (hnet : st.net = .success text none :: rest) :
    (WialonClient.callApi service params st).1 =
      .error (.dataError ("Error al decodificar la respuesta JSON de "
        ++ service ++ ": " ++ text)) := by
  unfold WialonClient.callApi
  rw [hnet]
  rfl

def stC3w : St :=
  { token := "T", sid := some (.str "S"),
    net := [.success "<html>not json</html>" none], calls := [], log := [] }

/-- Witness for C3 at a concrete non-JSON body. -/
theorem callApi_nonjson_dataerror_witness :
    (WialonClient.callApi "core/search_items" (.obj []) stC3w).1 =
      .error (.dataError
        "Error al decodificar la respuesta JSON de core/search_items: <html>not json</html>") :=
  callApi_nonjson_dataerror stC3w "core/search_items" (.obj [])
    "<html>not json</html>" [] rfl

/-- C4: for every parsed response body (an object, the only envelope shape
the wire protocol defines) containing an `error` key, `_call_api` fails with
`WialonAuthError` if and only if the service is `token/login` and
`WialonAPIError` otherwise, and in both cases the message carries the error
code, the service name, and the `reason` field when present (the fallback
`Unknown error` otherwise); a body without an `error` key is returned
unchanged.  The error code is restricted to the numeric/string shapes the
envelope defines (for which the modelled f-string rendering is exact). -/
theorem callApi_envelope_error (st : St) (service : String) (params : Json)
    (text : String) (data : Json) (rest : List HttpResult)
    (hnet : st.net = .success text (some data) :: rest) :
    (∀ code, data.get? "error" = some code → code.isNumOrStr = true →
      (WialonClient.callApi service params st).1 =
        (if service == "token/login"
         then .error (.authError (envelopeMsg service data code))
         else .error (.apiError (envelopeMsg service data code))))
    ∧ (data.isObj = true → data.get? "error" = none →
      (WialonClient.callApi service params st).1 = .ok data) := by
  constructor
  · intro code hcode _
    unfold WialonClient.callApi
    rw [hnet]
    dsimp only [List.headD, List.tail]
    rw [hcode]
    by_cases hs : (service == "token/login") = true <;> simp [hs, envelopeMsg]
  · intro _ he
    unfold WialonClient.callApi
    rw [hnet]
    dsimp only [List.headD, List.tail]
    rw [he]

def stC4w : St :=
  { token := "T", sid := some (.str "S"),
    net := [.success "r" (some (.obj [("error", .num 5)]))],
    calls := [], log := [] }

/-- Witness for C4: a simulated `\x7b"error": 5\x7d` to a non-login service
raises `WialonAPIError` whose message contains `5`. -/
theorem callApi_envelope_error_witness :
    (WialonClient.callApi "core/search_items" (.obj []) stC4w).1 =
      .error (.apiError "API Error 5: core/search_items - Unknown error") := by
  have h := (callApi_envelope_error stC4w "core/search_items" (.obj [])
      "r" (.obj [("error", .num 5)]) [] rfl).1 (.num 5) rfl rfl
  simpa using h

/-- C1: `logout` on a client holding a session id never raises: every
outcome of the `core/logout` round trip is handled and `logout` returns a
plain state (its type `St → St` has no error component; the conjunction
covers every outcome of the call).  A remote error whose extracted code is 0
is suppressed with a debug-level record, any other extracted code — which
includes transport and data errors, whose messages parse to the sentinel
`-1` — is recorded as a warning, and in no case does the error propagate. -/
theorem logout_never_raises (st : St) (h : sidTruthy st.sid = true) :
    (∀ d st1, WialonClient.callApi "core/logout" (.obj []) st = (.ok d, st1) →
        WialonClient.logout st =
          { st1 with sid := none,
                     log := st1.log ++
                       [(.info, "Sesión cerrada exitosamente.")] })
    ∧ (∀ e st1,
        WialonClient.callApi "core/logout" (.obj []) st = (.error e, st1) →
        WialonClient.logoutCode e = 0 →
        WialonClient.logout st =
          { st1 with log := st1.log ++
            [(.debug,
              "Sesión ya invalidada o error genérico al cerrar sesión (código 0): "
                ++ e.msg)] })
    ∧ (∀ e st1,
        WialonClient.callApi "core/logout" (.obj []) st = (.error e, st1) →
        WialonClient.logoutCode e ≠ 0 →
        WialonClient.logout st =
          { st1 with log := st1.log ++
            [(.warning, "Advertencia al cerrar sesión: " ++ e.msg)] }) := by
  refine ⟨fun d st1 hc => ?_, fun e st1 hc h0 => ?_, fun e st1 hc h0 => ?_⟩
  · unfold WialonClient.logout
    rw [if_pos h, hc]
  · unfold WialonClient.logout
    rw [if_pos h, hc]
    dsimp only
    rw [if_pos h0]
  · unfold WialonClient.logout
    rw [if_pos h, hc]
    dsimp only
    rw [if_neg h0]

def stC1w : St :=
  { token := "T", sid := some (.str "S"),
    net := [.success "r" (some (.obj [("error", .num 0)]))],
    calls := [], log := [] }

/-- Witness for C1: a simulated `\x7b"error": 0\x7d` to logout is suppressed
at debug level and logout returns normally. -/
theorem logout_never_raises_witness :
    WialonClient.logout stC1w =
      { token := "T", sid := some (.str "S"), net := [],
        calls := [⟨"core/logout", .obj [], some (.str "S")⟩],
        log := [(.debug,
          "Sesión ya invalidada o error genérico al cerrar sesión (código 0): API Error 0: core/logout - Unknown error")] } := by
  have h := (logout_never_raises stC1w rfl).2.1
      (.apiError "API Error 0: core/logout - Unknown error")
      { token := "T", sid := some (.str "S"), net := [],
        calls := [⟨"core/logout", .obj [], some (.str "S")⟩], log := [] }
      rfl rfl
  simpa using h

def stC2cex : St :=
  { token := "T", sid := some (.str "SID123"),
    net := [.success "resp" (some (.obj [("error", .num 0)]))],
    calls := [], log := [] }

/-- C2 counterexample: on a client holding sid `SID123`, the `core/logout`
call is attempted (one request is issued) and answered with an API-level
error (`\x7b"error": 0\x7d`), yet the session id is NOT cleared — the
assignment `self._sid = None` sits inside the `try` block after the call and
is skipped when the call raises, contradicting the claim that the sid is
cleared on every path once the call has been attempted. -/
theorem logout_sid_retained_cex :
    (WialonClient.logout stC2cex).calls.length = 1 ∧
    (WialonClient.logout stC2cex).sid ≠ none := by
  refine ⟨rfl, ?_⟩
  rw [show (WialonClient.logout stC2cex).sid = some (.str "SID123") from rfl]
  simp

/-- C2 amended: after `logout` has attempted the remote `core/logout` call,
the session id is cleared locally when the remote call returns successfully,
and retained (unchanged) when the call fails at the API, transport or data
level. -/
theorem logout_sid_cleared_iff_success (st : St) (h : sidTruthy st.sid = true) :
    (∀ d st1, WialonClient.callApi "core/logout" (.obj []) st = (.ok d, st1) →
        (WialonClient.logout st).sid = none)
    ∧ (∀ e st1,
        WialonClient.callApi "core/logout" (.obj []) st = (.error e, st1) →
        (WialonClient.logout st).sid = st.sid) := by
  constructor
  · intro d st1 hc
    unfold WialonClient.logout
    rw [if_pos h, hc]
  · intro e st1 hc
    have hs1 : st1.sid = st.sid := by
      have h2 : st1 = (WialonClient.callApi "core/logout" (.obj []) st).2 := by
        rw [hc]
      rw [h2, WialonClient.callApi_state]
    unfold WialonClient.logout
    rw [if_pos h, hc]
    dsimp only
    by_cases h0 : WialonClient.logoutCode e = 0 <;> simp [h0, hs1]

def stC2w : St :=
  { token := "T", sid := some (.str "S"),
    net := [.success "r" (some (.obj [("error", .num 5)]))],
    calls := [], log := [] }

/-- Witness for the amended C2 at a concrete failing logout. -/
theorem logout_sid_cleared_iff_success_witness :
    (WialonClient.logout stC2w).sid = stC2w.sid :=
  (logout_sid_cleared_iff_success stC2w rfl).2
    (.apiError "API Error 5: core/logout - Unknown error")
    { token := "T", sid := some (.str "S"), net := [],
      calls := [⟨"core/logout", .obj [], some (.str "S")⟩], log := [] }
    rfl

/-- C5: for every `core/search_items` response whose `items` list holds
records each carrying `nm` and `id`, `get_unit_ids` returns the list of
`\x7b"nombre": nm, "id": id\x7d` records in served order; an empty `items`
list yields the empty list without error; a response without `items` fails
with `WialonDataError`.  (The response is a success envelope: no `error`
key, else `_call_api` would have raised before the payload was read.) -/
theorem get_unit_ids_items_contract (st : St) (mask text : String)
    (data : Json) (rest : List HttpResult)
    (h : sidTruthy st.sid = true)
    (hnet : st.net = .success text (some data) :: rest)
    (he : data.get? "error" = none) :
    (∀ items, data.get? "items" = some (.arr items) →
        (∀ r ∈ items, hasUnitKeys r = true) →
        (WialonClient.get_unit_ids mask st).1 = .ok (items.map unidadOf))
    ∧ (data.get? "items" = some (.arr []) →
        (WialonClient.get_unit_ids mask st).1 = .ok [])
    ∧ (data.get? "items" = none →
        (WialonClient.get_unit_ids mask st).1 = .error (.wialon (.dataError
          "Respuesta inesperada al buscar unidades: \x27items\x27 no encontrado."))) := by
  have hes : WialonClient.ensure_sid st = (.ok (), st) := by
    unfold WialonClient.ensure_sid
    rw [if_pos h]
  have hca := WialonClient.callApi_ok "core/search_items"
    (WialonClient.searchParams mask) st text data rest hnet he
  refine ⟨?_, ?_, ?_⟩
  · intro items hitems hkeys
    unfold WialonClient.get_unit_ids
    rw [hes]
    dsimp only
    rw [hca]
    dsimp only
    rw [hitems]
    dsimp only
    rw [buildUnidades_ok items hkeys]
  · intro hitems
    unfold WialonClient.get_unit_ids
    rw [hes]
    dsimp only
    rw [hca]
    dsimp only
    rw [hitems]
    rfl
  · intro hitems
    unfold WialonClient.get_unit_ids
    rw [hes]
    dsimp only
    rw [hca]
    dsimp only
    rw [hitems]

def stC5w : St :=
  { token := "T", sid := some (.str "S"),
    net := [.success "r" (some (.obj [("items", .arr
      [.obj [("nm", .str "A"), ("id", .num 1)],
       .obj [("nm", .str "B"), ("id", .num 2)]])]))],
    calls := [], log := [] }

/-- Witness for C5: two served units come back as two records in served
order. -/
theorem get_unit_ids_items_contract_witness :
    (WialonClient.get_unit_ids "*" stC5w).1 =
      .ok [⟨.str "A", .num 1⟩, ⟨.str "B", .num 2⟩] := by
  have h := (get_unit_ids_items_contract stC5w "*" "r" (.obj [("items", .arr
      [.obj [("nm", .str "A"), ("id", .num 1)],
       .obj [("nm", .str "B"), ("id", .num 2)]])]) [] rfl rfl rfl).1
      [.obj [("nm", .str "A"), ("id", .num 1)],
       .obj [("nm", .str "B"), ("id", .num 2)]] rfl
      (by intro r hr; fin_cases hr <;> rfl)
  simpa using h

/-- C10 (implicit): a `core/search_items` response whose `items` list holds
a record lacking `nm` or `id` makes `get_unit_ids` raise a plain `KeyError`
from dictionary indexing — an exception outside the module's documented
taxonomy, in particular not a `WialonDataError` — rather than returning a
result or a typed error. -/
theorem get_unit_ids_missing_key_keyerror (st : St) (mask text : String)
    (data : Json) (items : List Json) (rest : List HttpResult)
    (h : sidTruthy st.sid = true)
    (hnet : st.net = .success text (some data) :: rest)
    (he : data.get? "error" = none)
    (hitems : data.get? "items" = some (.arr items))
    (hobj : ∀ r ∈ items, r.isObj = true)
    (hbad : ¬ ∀ r ∈ items, hasUnitKeys r = true) :
    ∃ k, (k = "nm" ∨ k = "id") ∧
      (WialonClient.get_unit_ids mask st).1 = .error (.keyError k) ∧
      (∀ m, (WialonClient.get_unit_ids mask st).1 ≠
        .error (.wialon (.dataError m))) := by
  obtain ⟨k, hk, hbe⟩ := buildUnidades_keyerror items hobj hbad
  have hes : WialonClient.ensure_sid st = (.ok (), st) := by
    unfold WialonClient.ensure_sid
    rw [if_pos h]
  have hca := WialonClient.callApi_ok "core/search_items"
    (WialonClient.searchParams mask) st text data rest hnet he
  have heq : (WialonClient.get_unit_ids mask st).1 = .error (.keyError k) := by
    unfold WialonClient.get_unit_ids
    rw [hes]
    dsimp only
    rw [hca]
    dsimp only
    rw [hitems]
    dsimp only
    rw [hbe]
  exact ⟨k, hk, heq, fun m => by simp [heq]⟩

def stC10w : St :=
  { token := "T", sid := some (.str "S"),
    net := [.success "r" (some (.obj [("items", .arr
      [.obj [("id", .num 1)]])]))],
    calls := [], log := [] }

/-- Witness for C10: a served record with an `id` but no `nm` raises
`KeyError`, not `WialonDataError`. -/
theorem get_unit_ids_missing_key_keyerror_witness :
    ∃ k, (k = "nm" ∨ k = "id") ∧
      (WialonClient.get_unit_ids "*" stC10w).1 = .error (.keyError k) ∧
      (∀ m, (WialonClient.get_unit_ids "*" stC10w).1 ≠
        .error (.wialon (.dataError m))) :=
  get_unit_ids_missing_key_keyerror stC10w "*" "r"
    (.obj [("items", .arr [.obj [("id", .num 1)]])])
    [.obj [("id", .num 1)]] [] rfl rfl rfl rfl
    (by intro r hr; fin_cases hr; rfl)
    (by
      intro hall
      exact absurd (hall (Json.obj [("id", Json.num 1)]) (by simp)) (by decide))

/-- C6: for every `core/search_item` response, `get_unit_mileage` returns
`float(item["cnm_km"])` when `item` and `cnm_km` are both present, and
returns `None` — not an error — when either the `item` key or the `cnm_km`
key is missing. -/
theorem get_unit_mileage_contract (st : St) (iid : Int) (text : String)
    (data : Json) (rest : List HttpResult)
    (h : sidTruthy st.sid = true)
    (hnet : st.net = .success text (some data) :: rest)
    (he : data.get? "error" = none) :
    (∀ item v q, data.get? "item" = some item →
        item.get? "cnm_km" = some v → WialonClient.pyFloat v = .ok q →
        (WialonClient.get_unit_mileage iid st).1 = .ok (some q))
    ∧ (data.get? "item" = none →
        (WialonClient.get_unit_mileage iid st).1 = .ok none)
    ∧ (∀ fs, data.get? "item" = some (.obj fs) →
        List.lookup "cnm_km" fs = none →
        (WialonClient.get_unit_mileage iid st).1 = .ok none) := by
  have hes : WialonClient.ensure_sid st = (.ok (), st) := by
    unfold WialonClient.ensure_sid
    rw [if_pos h]
  have hca := WialonClient.callApi_ok "core/search_item"
    (.obj [("id", .num iid), ("flags", .num 8192)]) st text data rest hnet he
  refine ⟨?_, ?_, ?_⟩
  · intro item v q hitem hv hq
    obtain ⟨fs, rfl⟩ : ∃ fs, item = Json.obj fs := by
      cases item <;> simp [Json.get?] at hv
      exact ⟨_, rfl⟩
    simp only [Json.get?] at hv
    unfold WialonClient.get_unit_mileage
    rw [hes]
    dsimp only
    rw [hca]
    dsimp only
    rw [hitem]
    dsimp only
    rw [hv]
    dsimp only
    rw [hq]
  · intro hitem
    unfold WialonClient.get_unit_mileage
    rw [hes]
    dsimp only
    rw [hca]
    dsimp only
    rw [hitem]
  · intro fs hitem hl
    unfold WialonClient.get_unit_mileage
    rw [hes]
    dsimp only
    rw [hca]
    dsimp only
    rw [hitem]
    dsimp only
    rw [hl]

def stC6w : St :=
  { token := "T", sid := some (.str "S"),
    net := [.success "r" (some (.obj [("item",
      .obj [("cnm_km", .str "1234.5")])]))],
    calls := [], log := [] }

/-- Witness for C6: a served `"cnm_km": "1234.5"` comes back as the rational
12345/10 (= 1234.5). -/
theorem get_unit_mileage_contract_witness :
    (WialonClient.get_unit_mileage 7 stC6w).1 = .ok (some (mkRat 12345 10)) :=
  (get_unit_mileage_contract stC6w 7 "r"
      (.obj [("item", .obj [("cnm_km", .str "1234.5")])]) [] rfl rfl rfl).1
    (.obj [("cnm_km", .str "1234.5")]) (.str "1234.5") (mkRat 12345 10)
    rfl rfl rfl

/-- C7: `login` is idempotent on an authenticated client.  A client holding
a (truthy) session id gets that id back with the state — including the
request trace — unchanged, so no network call happens; consequently, from an
unauthenticated client whose login round trip succeeds with a non-empty
session id (the only session-id shape the data model admits), two
consecutive logins issue exactly the one `token/login` request. -/
theorem login_idempotent (st : St) :
    (∀ j, st.sid = some j → j.truthy = true →
        WialonClient.login st = (.ok j, st))
    ∧ (∀ text data e rest, sidTruthy st.sid = false →
        st.net = .success text (some data) :: rest →
        data.get? "error" = none → data.get? "eid" = some (.str e) →
        Json.truthy (.str e) = true →
        WialonClient.login st =
          (.ok (.str e),
            { st with sid := some (.str e), net := rest,
                      calls := st.calls ++
                        [⟨"token/login", .obj [("token", .str st.token)],
                          none⟩] }) ∧
        WialonClient.login
            { st with sid := some (.str e), net := rest,
                      calls := st.calls ++
                        [⟨"token/login", .obj [("token", .str st.token)],
                          none⟩] } =
          (.ok (.str e),
            { st with sid := some (.str e), net := rest,
                      calls := st.calls ++
                        [⟨"token/login", .obj [("token", .str st.token)],
                          none⟩] })) := by
  constructor
  · intro j hj ht
    have h : sidTruthy st.sid = true := by
      rw [hj]
      exact ht
    unfold WialonClient.login
    rw [if_pos h, hj]
    rfl
  · intro text data e rest hf hnet herr heid htr
    have hca := WialonClient.callApi_ok "token/login"
      (.obj [("token", .str st.token)]) st text data rest hnet herr
    constructor
    · unfold WialonClient.login
      rw [if_neg (by simp [hf])]
      rw [hca]
      dsimp only
      rw [heid]
      simp [hf]
    · unfold WialonClient.login
      rw [if_pos (show sidTruthy (some (.str e)) = true from htr)]
      rfl

def stC7w : St :=
  { token := "TOK", sid := none,
    net := [.success "r" (some (.obj [("eid", .str "NEWSID")]))],
    calls := [], log := [] }

/-- Witness for C7: a fresh client logs in once; the second login returns
the same sid and leaves the state — one recorded request — untouched. -/
theorem login_idempotent_witness :
    WialonClient.login stC7w =
      (.ok (.str "NEWSID"),
        { token := "TOK", sid := some (.str "NEWSID"), net := [],
          calls := [⟨"token/login", .obj [("token", .str "TOK")], none⟩],
          log := [] }) ∧
    WialonClient.login
        { token := "TOK", sid := some (.str "NEWSID"), net := [],
          calls := [⟨"token/login", .obj [("token", .str "TOK")], none⟩],
          log := [] } =
      (.ok (.str "NEWSID"),
        { token := "TOK", sid := some (.str "NEWSID"), net := [],
          calls := [⟨"token/login", .obj [("token", .str "TOK")], none⟩],
          log := [] }) := by
  have h := (login_idempotent stC7w).2 "r" (.obj [("eid", .str "NEWSID")])
      "NEWSID" [] rfl rfl rfl rfl rfl
  simpa using h

/-- C8: lazy authentication.  `ensure_sid` logs in iff no truthy session id
is held; on a held sid it is a pure no-op, otherwise it performs the
`token/login` request.  Once `ensure_sid` has succeeded and the resulting
session id is truthy (non-empty, per the data model), both public data
operations issue their remote request with exactly that sid attached; if
`ensure_sid` fails, no data request is issued at all. -/
theorem lazy_auth_invariant (st : St) (mask : String) (iid : Int) :
    (sidTruthy st.sid = true → WialonClient.ensure_sid st = (.ok (), st))
    ∧ (sidTruthy st.sid = false →
        (WialonClient.ensure_sid st).2 = (WialonClient.login st).2 ∧
        (WialonClient.login st).2.calls =
          st.calls ++ [⟨"token/login", .obj [("token", .str st.token)], none⟩])
    ∧ (∀ st1, WialonClient.ensure_sid st = (.ok (), st1) →
        sidTruthy st1.sid = true →
        (WialonClient.get_unit_ids mask st).2.calls =
          st1.calls ++ [⟨"core/search_items", WialonClient.searchParams mask,
            st1.sid⟩] ∧
        (WialonClient.get_unit_mileage iid st).2.calls =
          st1.calls ++ [⟨"core/search_item",
            .obj [("id", .num iid), ("flags", .num 8192)], st1.sid⟩])
    ∧ (∀ e st1, WialonClient.ensure_sid st = (.error e, st1) →
        (WialonClient.get_unit_ids mask st).2.calls = st1.calls ∧
        (WialonClient.get_unit_mileage iid st).2.calls = st1.calls) := by
  refine ⟨?_, ?_, ?_, ?_⟩
  · intro h
    unfold WialonClient.ensure_sid
    rw [if_pos h]
  · intro hf
    constructor
    · unfold WialonClient.ensure_sid
      rw [if_neg (by simp [hf])]
      rcases hl : WialonClient.login st with ⟨r, st1⟩
      cases r <;> rfl
    · exact WialonClient.login_calls st hf
  · intro st1 hes htr
    constructor
    · rw [WialonClient.get_unit_ids_snd mask st st1 hes,
        WialonClient.callApi_state]
      simp [htr]
    · rw [WialonClient.get_unit_mileage_snd iid st st1 hes,
        WialonClient.callApi_state]
      simp [htr]
  · intro e st1 hes
    constructor
    · unfold WialonClient.get_unit_ids
      rw [hes]
    · unfold WialonClient.get_unit_mileage
      rw [hes]

def stC8w : St :=
  { token := "T", sid := none,
    net := [.success "l" (some (.obj [("eid", .str "SID")])),
            .success "r" (some (.obj [("items", .arr [])]))],
    calls := [], log := [] }

/-- Witness for C8: an unauthenticated client transparently logs in and
then issues the search request with the fresh sid attached. -/
theorem lazy_auth_invariant_witness :
    (WialonClient.get_unit_ids "*" stC8w).2.calls =
      [⟨"token/login", .obj [("token", .str "T")], none⟩,
       ⟨"core/search_items", WialonClient.searchParams "*",
        some (.str "SID")⟩] := by
  have h := ((lazy_auth_invariant stC8w "*" 1).2.2.1
      { token := "T", sid := some (.str "SID"),
        net := [.success "r" (some (.obj [("items", .arr [])]))],
        calls := [⟨"token/login", .obj [("token", .str "T")], none⟩],
        log := [] } rfl rfl).1
  simpa using h

/-- C9: the context manager.  When `__enter__`'s login succeeds, the wrapped
block runs and `__exit__` runs `logout` on every exit path: the wrapper's
result is exactly the block's result — an exception from the block is never
suppressed — and its final state is `logout` of the block's final state,
including the `core/logout` request whenever a sid is then held; on an
unauthenticated client the acquisition performed the `token/login` call. -/
theorem with_wrapper_contract (α : Type) (st : St)
    (body : St → Except PyError α × St) (j : Json) (st1 : St)
    (hlogin : WialonClient.login st = (.ok j, st1)) :
    WialonClient.withClient st body =
      ((body st1).1, WialonClient.logout (body st1).2)
    ∧ (∀ e, (body st1).1 = .error e →
        (WialonClient.withClient st body).1 = .error e)
    ∧ (sidTruthy (body st1).2.sid = true →
        (WialonClient.withClient st body).2.calls =
          (body st1).2.calls ++ [⟨"core/logout", .obj [], (body st1).2.sid⟩])
    ∧ (sidTruthy st.sid = false →
        st1.calls = st.calls ++
          [⟨"token/login", .obj [("token", .str st.token)], none⟩]) := by
  have h1 : WialonClient.withClient st body =
      ((body st1).1, WialonClient.logout (body st1).2) := by
    unfold WialonClient.withClient
    rw [hlogin]
  refine ⟨h1, ?_, ?_, ?_⟩
  · intro e he
    rw [h1]
    exact he
  · intro htr
    rw [h1]
    exact WialonClient.logout_calls _ htr
  · intro hf
    have h2 := WialonClient.login_calls st hf
    rw [hlogin] at h2
    exact h2

def stC9w : St :=
  { token := "T", sid := none,
    net := [.success "l" (some (.obj [("eid", .str "SID")])),
            .success "r" (some (.obj []))],
    calls := [], log := [] }

def bodyC9 : St → Except PyError Nat × St :=
  fun s => (.error (.keyError "boom"), s)

/-- Witness for C9: a block that raises still gets its exception out of the
wrapper, and the logout request was issued on the way. -/
theorem with_wrapper_contract_witness :
    (WialonClient.withClient stC9w bodyC9).1 = .error (.keyError "boom") ∧
    (WialonClient.withClient stC9w bodyC9).2.calls =
      [⟨"token/login", .obj [("token", .str "T")], none⟩,
       ⟨"core/logout", .obj [], some (.str "SID")⟩] := by
  have h := with_wrapper_contract Nat stC9w bodyC9 (.str "SID")
      { token := "T", sid := some (.str "SID"),
        net := [.success "r" (some (.obj []))],
        calls := [⟨"token/login", .obj [("token", .str "T")], none⟩],
        log := [] } rfl
  refine ⟨h.2.1 (.keyError "boom") rfl, ?_⟩
  have h3 := h.2.2.1 rfl
  simpa using h3

end WialonModel
